import Mathlib

/-!
Verification development for the SQLRAG repository (`src/sqlrag/`).

Python strings are modelled as `List Char`.  The inputs the library handles
are ASCII, so Python's `str.strip`, `str.lower`, `str.upper` and the regular
expressions (which are used on ASCII patterns only) are embedded with their
ASCII behaviour.  The regular-expression searches from `utils.py` and
`constants.py` are embedded as explicit leftmost-match scanners with the
backtracking behaviour of `re.search`: at each start position the
alternatives are tried in order, a position is abandoned only when no
alternative completes there, and lazy groups `(.*?)` stop at the first
position where the rest of the pattern completes.
-/

namespace SQLRAG

/-- ASCII whitespace characters (the fragment of Python's `str.strip()` /
`\s` relevant to ASCII input). -/
def isPySpace (c : Char) : Bool :=
  c == ' ' || c == '\t' || c == '\n' || c == '\r' || c == '\x0b' || c == '\x0c'

/-- Python `str.strip()` (ASCII fragment): drop whitespace from both ends. -/
def pyStrip (s : List Char) : List Char :=
  ((s.dropWhile isPySpace).reverse.dropWhile isPySpace).reverse

/-- Python `str.lower()` on an ASCII character (code points 65–90 are
`'A'`–`'Z'`). -/
def asciiLower (c : Char) : Char :=
  if 65 ≤ c.toNat ∧ c.toNat ≤ 90 then Char.ofNat (c.toNat + 32) else c

/-- Python `str.upper()` on an ASCII character (code points 97–122 are
`'a'`–`'z'`). -/
def asciiUpper (c : Char) : Char :=
  if 97 ≤ c.toNat ∧ c.toNat ≤ 122 then Char.ofNat (c.toNat - 32) else c

/-- Python `str.lower()`. -/
def pyLower (s : List Char) : List Char := s.map asciiLower

/-- Python `str.upper()`. -/
def pyUpper (s : List Char) : List Char := s.map asciiUpper

/-- Regex `\w` (ASCII fragment): letters, digits, underscore. -/
def isWordChar (c : Char) : Bool :=
  ('a' ≤ c && c ≤ 'z') || ('A' ≤ c && c ≤ 'Z') || ('0' ≤ c && c ≤ '9') || c == '_'

/-- A word boundary `\b` sits after a word character at this point of the
text: the remaining text is empty or starts with a non-word character. -/
def boundaryAfter : List Char → Bool
  | [] => true
  | c :: _ => !isWordChar c

/-- Case-insensitive prefix test (regex literal under `re.IGNORECASE`). -/
def ciStartsWith : List Char → List Char → Bool
  | [], _ => true
  | _ :: _, [] => false
  | p :: ps, c :: cs => (asciiLower p == asciiLower c) && ciStartsWith ps cs

/-- Split a text at the first (leftmost) occurrence of `pat`, returning the
part before the occurrence and the part after it.  This is the shape of a
lazy regex fragment `(.*?)pat`: the capture is everything up to the first
position where `pat` completes. -/
def splitFirst (pat : List Char) : List Char → Option (List Char × List Char)
  | [] => if pat = [] then some ([], []) else none
  | c :: cs =>
    if pat.isPrefixOf (c :: cs) then some ([], (c :: cs).drop pat.length)
    else (splitFirst pat cs).map (fun pr => (c :: pr.1, pr.2))

/-!
## Extractor (`src/sqlrag/utils.py`)

`extract_sql_query` uses three regex searches, embedded here as scanners:

* case 1: `re.search(r"SELECT.*?;", response, re.DOTALL | re.IGNORECASE)`;
* case 2: `re.search(r"```sql\s*(.*?)\s*```", response, re.DOTALL | re.IGNORECASE)`;
* case 3: `re.search(r"\bSELECT\b.*?;", response, re.DOTALL | re.IGNORECASE)`.
-/

/-- Case-1 search: at each position try a case-insensitive `SELECT`; the lazy
`.*?;` then ends the match at the first following `';'`.  If no `';'`
follows, the engine abandons the position and scans on.  Returns `group(0)`,
the whole matched text. -/
def selectSemiSearch : List Char → Option (List Char)
  | [] => none
  | c :: cs =>
    if ciStartsWith ("SELECT".data) (c :: cs) then
      match splitFirst ([';']) ((c :: cs).drop 6) with
      | some (mid, _) => some ((c :: cs).take (6 + mid.length + 1))
      | none => selectSemiSearch cs
    else selectSemiSearch cs

/-- Case-2 search for `r"```sql\s*(.*?)\s*```"` (case-insensitive).  The
match at a position needs a leading ` ```sql ` and some later ` ``` `; the
lazy interior ends at the first closing fence.  The greedy `\s*` on both
sides of the lazy group trim exactly the leading and trailing whitespace of
the interior, so `group(1)` is the interior between the fences with its
surrounding whitespace stripped; since the source immediately applies
`.strip()` to `group(1)`, the embedding returns the raw interior and the
caller strips it (the composition is the same string). -/
def sqlBlockSearch : List Char → Option (List Char)
  | [] => none
  | c :: cs =>
    if ciStartsWith ("```sql".data) (c :: cs) then
      match splitFirst ("```".data) ((c :: cs).drop 6) with
      | some (interior, _) => some interior
      | none => sqlBlockSearch cs
    else sqlBlockSearch cs

/-- Case-3 search for `r"\bSELECT\b.*?;"` (case-insensitive).  `prevWord`
records whether the character just before the current position is a word
character (`\b` holds at the start of the text and after a non-word
character).  After `SELECT` the second `\b` requires end-of-text or a
non-word character; the lazy `.*?;` ends at the first following `';'`. -/
def wbSelectSearch : Bool → List Char → Option (List Char)
  | _, [] => none
  | prevWord, c :: cs =>
    if !prevWord && ciStartsWith ("SELECT".data) (c :: cs)
        && boundaryAfter ((c :: cs).drop 6) then
      match splitFirst ([';']) ((c :: cs).drop 6) with
      | some (mid, _) => some ((c :: cs).take (6 + mid.length + 1))
      | none => wbSelectSearch (isWordChar c) cs
    else wbSelectSearch (isWordChar c) cs

/-- `utils.extract_sql_query(response)`.

```python
if response.strip().upper().startswith("SELECT"):
    match = re.search(r"SELECT.*?;", response, re.DOTALL | re.IGNORECASE)
    if match: return match.group(0).strip()
match = re.search(r"```sql\s*(.*?)\s*```", response, re.DOTALL | re.IGNORECASE)
if match: return match.group(1).strip()
match = re.search(r"\bSELECT\b.*?;", response, re.DOTALL | re.IGNORECASE)
if match: return match.group(0).strip()
return response.strip()
```
-/
def extract_sql_query (response : List Char) : List Char :=
  let fallthrough : List Char :=
    match sqlBlockSearch response with
    | some interior => pyStrip interior
    | none =>
      match wbSelectSearch false response with
      | some g0 => pyStrip g0
      | none => pyStrip response
  if ("SELECT".data).isPrefixOf (pyUpper (pyStrip response)) then
    match selectSemiSearch response with
    | some g0 => pyStrip g0
    | none => fallthrough
  else fallthrough

/-!
## `extract_code_response` (`src/sqlrag/utils.py` with `src/sqlrag/constants.py`)

```python
PYTHON_REGEX = r"```python(.*?)```"
JAVASCRIPT_REGEX = r"```(?:javascript|js)(.*?)```|<script\b[^>]*>(.*?)</script>"

code_match = None
if chart_type == "matplotlib":
    code_match = re.search(PYTHON_REGEX, response, re.DOTALL)
elif chart_type == "chart.js":
    code_match = re.search(JAVASCRIPT_REGEX, response, re.DOTALL)
    if code_match:
        code_match = code_match.group(1) if code_match.group(1) else code_match.group(2)
return code_match
```

The function can return three kinds of Python value: `None`, a string, or —
in the matplotlib branch, which never calls `.group` — the `re.Match`
object itself.  `PyVal` models this value space; `PyVal.matchObj g` is a
match object whose group-1 capture is `g`.
-/

/-- A Python value returned by `extract_code_response`. -/
inductive PyVal where
  | none : PyVal
  | str : List Char → PyVal
  | matchObj : List Char → PyVal
deriving DecidableEq

/-- Search for `r"```python(.*?)```"` (no IGNORECASE): the match needs
` ```python ` at the position and a later ` ``` `; the lazy group captures
up to the first closing fence.  Returns `group(1)`. -/
def pythonBlockSearch : List Char → Option (List Char)
  | [] => none
  | c :: cs =>
    if ("```python".data).isPrefixOf (c :: cs) then
      match splitFirst ("```".data) ((c :: cs).drop 9) with
      | some (interior, _) => some interior
      | none => pythonBlockSearch cs
    else pythonBlockSearch cs

/-- Which alternative of `JAVASCRIPT_REGEX` matched, with its capture:
`fenced` is `group(1)` of the ` ```(?:javascript|js)(.*?)``` ` alternative,
`script` is `group(2)` of the `<script\b[^>]*>(.*?)</script>` one. -/
inductive JsGroup where
  | fenced : List Char → JsGroup
  | script : List Char → JsGroup
deriving DecidableEq

/-- First alternative of `JAVASCRIPT_REGEX` at one position: a fence tagged
`javascript` or `js` (the inner alternation is deterministic: after
` ```j ` the next character decides the tag), completed by a later ` ``` `;
group 1 is the lazy interior up to the first closing fence. -/
def jsFenceAt (s : List Char) : Option (List Char) :=
  if ("```javascript".data).isPrefixOf s then
    (splitFirst ("```".data) (s.drop 13)).map Prod.fst
  else if ("```js".data).isPrefixOf s then
    (splitFirst ("```".data) (s.drop 5)).map Prod.fst
  else none

/-- Second alternative of `JAVASCRIPT_REGEX` at one position:
`<script\b[^>]*>(.*?)</script>`.  After the literal `<script`, `\b` needs
end-of-text or a non-word character; `[^>]*>` cannot cross a `'>'`, so it
reaches exactly the first `'>'`; group 2 is the lazy interior up to the
first following `</script>`. -/
def scriptTagAt (s : List Char) : Option (List Char) :=
  if ("<script".data).isPrefixOf s then
    if boundaryAfter (s.drop 7) then
      match splitFirst (['>']) (s.drop 7) with
      | some (_, afterGt) => (splitFirst ("</script>".data) afterGt).map Prod.fst
      | none => none
    else none
  else none

/-- `re.search(JAVASCRIPT_REGEX, response, re.DOTALL)`: leftmost match over
the two alternatives, the fenced alternative tried first at each position
(the two can never match at the same position: one needs a backtick there,
the other a `'<'`). -/
def jsSearch : List Char → Option JsGroup
  | [] => none
  | c :: cs =>
    match jsFenceAt (c :: cs) with
    | some g => some (JsGroup.fenced g)
    | none =>
      match scriptTagAt (c :: cs) with
      | some g => some (JsGroup.script g)
      | none => jsSearch cs

/-- `utils.extract_code_response(response, chart_type)`.  In the matplotlib
branch the source returns the `re.Match` object itself (it never calls
`.group`); in the chart.js branch `group(1) if group(1) else group(2)`
returns `group(2)` (which is `None`) when the fenced capture is the empty
string, and returns the script capture (a string, possibly empty) when the
script alternative matched, since `group(1)` is then `None`. -/
def extract_code_response (response : List Char) (chart_type : List Char) : PyVal :=
  if chart_type = ("matplotlib".data) then
    match pythonBlockSearch response with
    | some g1 => PyVal.matchObj g1
    | none => PyVal.none
  else if chart_type = ("chart.js".data) then
    match jsSearch response with
    | none => PyVal.none
    | some (JsGroup.fenced g1) => if g1 = [] then PyVal.none else PyVal.str g1
    | some (JsGroup.script g2) => PyVal.str g2
  else PyVal.none

/-!
## Orchestrator (`src/sqlrag/open_sql_rag.py`)

A raised Python exception is modelled as `Except.error` carrying a `PyExc`:
either the repository's `InvalidInputError` with its message, or any other
exception (`other`) with its `str(e)` text.  The external collaborators —
the LLM backends, the database, and the Redis client — are opaque
functions that return a value or raise; they are gathered in `Collab` and
the orchestrator is parameterised over them.  `total_time` (wall-clock
elapsed time) is not modelled.
-/

/-- An exception: the library's `InvalidInputError`, or any other kind. -/
inductive PyExc where
  | invalidInput : List Char → PyExc
  | other : List Char → PyExc
deriving DecidableEq

/-- `str(e)` of a raised exception, as interpolated into messages. -/
def excStr : PyExc → List Char
  | .invalidInput m => m
  | .other m => m

/-- The input dictionary of `generate_code_and_sql`: each key present or
missing (a missing key raises `KeyError` on subscript). -/
structure Request where
  chart_type : Option (List Char)
  query : Option (List Char)
deriving DecidableEq

/-- The decoded cache entry, a JSON dictionary read through `dict.get`
(each key may be absent). -/
structure CacheEntry where
  sql_query : Option (List Char)
  result : Option (List Char)
  chart_code : Option (List Char)
deriving DecidableEq

/-- The response dictionary (without `total_time`, which is wall-clock). -/
structure Resp where
  message : List Char
  sql_query : Option (List Char)
  chart_code : Option PyVal
deriving DecidableEq

/-- The external collaborators of the orchestrator.
`llm_sql q` is the raw text of the model response for the SQL prompt built
from `q`; `cache_get k` is the Redis lookup (with `None` for a missing key
or a falsy decoded value); `db_run s` is `self.db.run(s)`;
`llm_chart ct r` is the raw text of the model response for the chart
prompt; `cache_set k r code` is the Redis write of
`{"sql_query": k, "result": r, "chart_code": code}`. -/
structure Collab where
  llm_sql : List Char → Except PyExc (List Char)
  cache_get : List Char → Except PyExc (Option CacheEntry)
  db_run : List Char → Except PyExc (List Char)
  llm_chart : List Char → List Char → Except PyExc (List Char)
  cache_set : List Char → List Char → PyVal → Except PyExc Unit
deriving Inhabited

/-- `constants.ALLOWED_CHART_TYPES = ["matplotlib", "chart.js"]`. -/
def ALLOWED_CHART_TYPES : List (List Char) :=
  [("matplotlib".data), ("chart.js".data)]

/-- The `InvalidInputError` message for a missing request key:
`f"""Missing required key: {str(e)}. ..."""` where `str(KeyError(k))`
prints the key in single quotes. -/
def missingKeyMsg (k : List Char) : List Char :=
  ("Missing required key: '".data) ++ k ++
    ("'.\n                Dict should have 'chart_type' and 'query' as keys.".data)

/-- `f"Invalid chart type. Allowed types: {ALLOWED_CHART_TYPES}"`. -/
def invalidChartMsg : List Char :=
  ("Invalid chart type. Allowed types: ['matplotlib', 'chart.js']".data)

/-- `f"Something went wrong: {str(e)}."` from the orchestrator's
`except Exception` handler. -/
def wrapMsg (e : List Char) : List Char :=
  ("Something went wrong: ".data) ++ e ++ (".".data)

/-- `OpenSQLRAG._generate_sql_query`: invoke the model on the SQL prompt;
return `response.content.strip()` for the OpenAI backend, and
`extract_sql_query(response)` for the open-source one.  A raised exception
propagates. -/
def _generate_sql_query (c : Collab) (is_openai : Bool) (query : List Char) :
    Except PyExc (List Char) :=
  match c.llm_sql query with
  | .error e => .error e
  | .ok response =>
    .ok (if is_openai then pyStrip response else extract_sql_query response)

/-- `OpenSQLRAG._check_cache`: `self.redis_client.get(cache_key)`. -/
def _check_cache (c : Collab) (cache_key : List Char) :
    Except PyExc (Option CacheEntry) :=
  c.cache_get cache_key

/-- `OpenSQLRAG._generate_chart_code`: invoke the model on the chart
prompt, extract the code, and raise `InvalidInputError` when the
extraction returns `None` (`is None` — an empty string or a match object
passes the check and is returned). -/
def _generate_chart_code (c : Collab) (chart_type result : List Char) :
    Except PyExc PyVal :=
  match c.llm_chart chart_type result with
  | .error e => .error e
  | .ok response =>
    let parsed := extract_code_response response chart_type
    if parsed = PyVal.none then
      .error (.invalidInput ("Something went wrong: Could not generate code".data))
    else .ok parsed

/-- `OpenSQLRAG._cache_result`: write the entry under the SQL key. -/
def _cache_result (c : Collab) (cache_key result : List Char)
    (chart_code : PyVal) : Except PyExc Unit :=
  c.cache_set cache_key result chart_code

/-- `OpenSQLRAG._format_response` (without `total_time`). -/
def _format_response (message : List Char) (sql_query : Option (List Char))
    (chart_code : Option PyVal) : Resp :=
  ⟨message, sql_query, chart_code⟩

/-- The `try:` block of `generate_code_and_sql` on a cache miss: run the
SQL, generate the chart code, write the cache entry, format the success
response.  Each raised exception propagates to the handler. -/
def runAndCache (c : Collab) (chart_type generated_sql_query : List Char) :
    Except PyExc Resp :=
  match c.db_run generated_sql_query with
  | .error e => .error e
  | .ok result =>
    match _generate_chart_code c chart_type result with
    | .error e => .error e
    | .ok chart_code =>
      match _cache_result c generated_sql_query result chart_code with
      | .error e => .error e
      | .ok _ =>
        .ok (_format_response ("Query and chart generated successfully.".data)
          (some generated_sql_query) (some chart_code))

/-- `OpenSQLRAG.generate_code_and_sql(data)`.

The key reads are inside a `try/except KeyError`; the chart-type check
raises `InvalidInputError` directly.  `_generate_sql_query` and
`_check_cache` are called OUTSIDE the second `try:` block, so an exception
raised by the model invocation or by the cache lookup propagates to the
caller unwrapped.  On a truthy cached value the function short-circuits
with the served-from-cache response.  Otherwise the `try:` block runs and
`except Exception as e` re-raises everything (including the
`InvalidInputError` of `_generate_chart_code`) as
`InvalidInputError(f"Something went wrong: {str(e)}.")`. -/
def generate_code_and_sql (c : Collab) (is_openai : Bool) (data : Request) :
    Except PyExc Resp :=
  match data.chart_type with
  | none => .error (.invalidInput (missingKeyMsg ("chart_type".data)))
  | some raw_ct =>
    let chart_type := pyLower raw_ct
    match data.query with
    | none => .error (.invalidInput (missingKeyMsg ("query".data)))
    | some query =>
      if chart_type ∈ ALLOWED_CHART_TYPES then
        match _generate_sql_query c is_openai query with
        | .error e => .error e
        | .ok generated_sql_query =>
          match _check_cache c generated_sql_query with
          | .error e => .error e
          | .ok (some cached_result) =>
            .ok (_format_response ("Fetching result from Redis cache...".data)
              cached_result.sql_query (cached_result.chart_code.map PyVal.str))
          | .ok none =>
            match runAndCache c chart_type generated_sql_query with
            | .ok r => .ok r
            | .error e => .error (.invalidInput (wrapMsg (excStr e)))
      else .error (.invalidInput invalidChartMsg)

/-!
## Cache Gateway (`src/sqlrag/cache.py`)

`RedisCache.get` is parameterised over the Redis client's raw read
(`client_get`, returning the stored text or `None`) and over `json.loads`
(`json_loads`, an external decoder that returns a value or raises).
-/

/-- `RedisCache.get`:

```python
cached_data = self.client.get(key)
if cached_data:
    return json.loads(cached_data)
return None
```

A missing key or an empty stored string is falsy and yields `None`; on a
non-empty stored string the result of `json.loads` is returned and any
exception it raises propagates (there is no handler). -/
def RedisCache.get {α : Type} (client_get : List Char → Option (List Char))
    (json_loads : List Char → Except PyExc α) (key : List Char) :
    Except PyExc (Option α) :=
  match client_get key with
  | none => .ok none
  | some cached_data =>
    if cached_data = [] then .ok none
    else
      match json_loads cached_data with
      | .error e => .error e
      | .ok v => .ok (some v)

/-- Substring test (used to state that a message mentions some text). -/
def mentions (pat s : List Char) : Bool :=
  (splitFirst pat s).isSome

end SQLRAG

deriving instance DecidableEq for Except

namespace SQLRAG

/-!
## Basic lemmas about the string primitives
-/

theorem toNat_ofNat_valid {n : Nat} (h : n.isValidChar) :
    (Char.ofNat n).toNat = n := by
  rw [Char.ofNat, dif_pos h]
  rfl

theorem asciiLower_idem (c : Char) : asciiLower (asciiLower c) = asciiLower c := by
  unfold asciiLower
  by_cases h : 65 ≤ c.toNat ∧ c.toNat ≤ 90
  · rw [if_pos h, if_neg]
    have ht : (Char.ofNat (c.toNat + 32)).toNat = c.toNat + 32 :=
      toNat_ofNat_valid (Or.inl (by omega))
    rw [ht]
    omega
  · rw [if_neg h, if_neg h]

theorem pyLower_idem (s : List Char) : pyLower (pyLower s) = pyLower s := by
  unfold pyLower
  rw [List.map_map]
  exact List.map_congr_left (fun a _ => asciiLower_idem a)

/-!
## Claims
-/

/-- Claim C1: the spec says `extract_code_response` with the matplotlib kind
returns the interior of a ` ```python ` fenced block as a string (or null),
and the source's own docstring promises `str` or `None`; but the matplotlib
branch returns the bare `re.Match` object (it never calls `.group(1)`), so
on any text containing such a block the result is neither a string nor
`None`.  Evaluated at the failing input `"```python\nx = 1\n```"`; on a
block-free input the branch does return `None`. -/
theorem C1_matplotlib_returns_match_object :
    extract_code_response (("```python\nx = 1\n```").data) (("matplotlib").data)
        = PyVal.matchObj (("\nx = 1\n").data)
    ∧ (∀ s, PyVal.matchObj (("\nx = 1\n").data) ≠ PyVal.str s)
    ∧ PyVal.matchObj (("\nx = 1\n").data) ≠ PyVal.none
    ∧ extract_code_response (("no code here").data) (("matplotlib").data)
        = PyVal.none := by
  refine ⟨by decide, ?_, by decide, by decide⟩
  intro s h
  exact PyVal.noConfusion h

/-- Claim C6: on a text that contains a completed ` ```sql ` fenced block
but whose trimmed text does not begin with `SELECT`, `extract_sql_query`
returns the trimmed interior of the (first) fenced block: case 1 is skipped
because of the guard, and the case-2 regex returns the stripped interior. -/
theorem C6_sql_fenced_block (s interior : List Char)
    (h1 : ¬ (("SELECT").data).isPrefixOf (pyUpper (pyStrip s)) = true)
    (h2 : sqlBlockSearch s = some interior) :
    extract_sql_query s = pyStrip interior := by
  unfold extract_sql_query
  rw [if_neg h1, h2]

/-- Witness for C6 at the spec's own example input
`"Here is the result:\n```sql\nSELECT name FROM users;\n```"`, which yields
exactly `"SELECT name FROM users;"`. -/
theorem C6_sql_fenced_block_witness :
    (¬ (("SELECT").data).isPrefixOf
        (pyUpper (pyStrip (("Here is the result:\n```sql\nSELECT name FROM users;\n```").data))) = true)
    ∧ sqlBlockSearch (("Here is the result:\n```sql\nSELECT name FROM users;\n```").data)
        = some (("\nSELECT name FROM users;\n").data)
    ∧ extract_sql_query (("Here is the result:\n```sql\nSELECT name FROM users;\n```").data)
        = (("SELECT name FROM users;").data) :=
  ⟨by decide, by decide,
    (C6_sql_fenced_block
        (("Here is the result:\n```sql\nSELECT name FROM users;\n```").data)
        (("\nSELECT name FROM users;\n").data)
        (by decide) (by decide)).trans (by decide)⟩

/-- Claim C8: for every collaborator bundle and backend flag (so before any
model, database, or cache interaction), a request missing `chart_type` or
`query` raises `InvalidInputError` with a message mentioning the missing
key, and the request `{chart_type: "pie", query: "x"}` raises
`InvalidInputError` with a message mentioning an invalid chart type. -/
theorem C8_request_validation (c : Collab) (b : Bool) :
    (∀ q, generate_code_and_sql c b ⟨none, q⟩
        = .error (.invalidInput (missingKeyMsg (("chart_type").data))))
    ∧ mentions (("chart_type").data) (missingKeyMsg (("chart_type").data)) = true
    ∧ (∀ ct, generate_code_and_sql c b ⟨some ct, none⟩
        = .error (.invalidInput (missingKeyMsg (("query").data))))
    ∧ mentions (("query").data) (missingKeyMsg (("query").data)) = true
    ∧ generate_code_and_sql c b ⟨some (("pie").data), some (("x").data)⟩
        = .error (.invalidInput invalidChartMsg)
    ∧ mentions (("Invalid chart type").data) invalidChartMsg = true := by
  refine ⟨fun q => rfl, by decide, fun ct => rfl, by decide, ?_, by decide⟩
  simp only [generate_code_and_sql]
  rw [if_neg (by decide)]

/-- Claim C10: `chart_type` is matched case-insensitively: the orchestrator
behaves identically on a request whose `chart_type` differs only in letter
case from its lowercased form (because `data["chart_type"].lower()` runs
before validation and before extraction dispatch), and the mixed-case
spellings `"MATPLOTLIB"` / `"Chart.JS"` lowercase into the allowed set. -/
theorem C10_chart_type_case_insensitive :
    (∀ (c : Collab) (b : Bool) (ct q : List Char),
        generate_code_and_sql c b ⟨some ct, some q⟩
          = generate_code_and_sql c b ⟨some (pyLower ct), some q⟩)
    ∧ pyLower (("MATPLOTLIB").data) = (("matplotlib").data)
    ∧ pyLower (("Chart.JS").data) = (("chart.js").data)
    ∧ (("matplotlib").data) ∈ ALLOWED_CHART_TYPES
    ∧ (("chart.js").data) ∈ ALLOWED_CHART_TYPES := by
  refine ⟨?_, by decide, by decide, by decide, by decide⟩
  intro c b ct q
  simp only [generate_code_and_sql, pyLower_idem]

/-- `_generate_sql_query` only reads the `llm_sql` collaborator. -/
theorem gen_sql_congr (c c' : Collab) (b : Bool) (q : List Char)
    (hl : c'.llm_sql = c.llm_sql) :
    _generate_sql_query c' b q = _generate_sql_query c b q := by
  unfold _generate_sql_query
  rw [hl]

/-- `_generate_sql_query` raises only what the model invocation raises. -/
theorem gen_sql_no_error (c : Collab) (b : Bool) (q : List Char)
    (h1 : ∀ e, c.llm_sql q ≠ .error e) (e : PyExc) :
    _generate_sql_query c b q ≠ .error e := by
  unfold _generate_sql_query
  cases hl : c.llm_sql q with
  | error e2 => exact absurd hl (h1 e2)
  | ok r => exact fun hcontra => Except.noConfusion hcontra

/-- Claim C2 counterexample: a model invocation that raises a
non-`InvalidInputError` exception while producing the SQL.  The call sits
outside the orchestrator's `try:` block, so the exception escapes to the
caller unwrapped — `generate_code_and_sql` does not surface every failure
as `InvalidInput`. -/
def cModelDown : Collab :=
  ⟨fun _ => .error (.other (("model down").data)),
   fun _ => .ok none,
   fun _ => .ok [],
   fun _ _ => .ok [],
   fun _ _ _ => .ok ()⟩

/-- Claim C2 is false as stated: at the valid request
`{chart_type: "matplotlib", query: "q"}` with a failing model invocation,
the operation raises the foreign exception itself, not `InvalidInput`. -/
theorem C2_counterexample :
    generate_code_and_sql cModelDown true
        ⟨some (("matplotlib").data), some (("q").data)⟩
      = .error (.other (("model down").data))
    ∧ ∀ m, generate_code_and_sql cModelDown true
        ⟨some (("matplotlib").data), some (("q").data)⟩
      ≠ .error (.invalidInput m) := by
  have hval : generate_code_and_sql cModelDown true
      ⟨some (("matplotlib").data), some (("q").data)⟩
      = .error (.other (("model down").data)) := by decide
  refine ⟨hval, fun m h => ?_⟩
  rw [hval] at h
  exact PyExc.noConfusion (Except.error.inj h)

/-- Claim C2 amended: when the SQL-producing model invocation and the cache
lookup do not raise (they are the two calls outside the `try:` block),
every failure of `generate_code_and_sql` is an `InvalidInputError`:
validation failures raise it directly, and the `except Exception` handler
wraps everything raised by SQL execution, chart generation and the cache
write. -/
theorem C2_amended (c : Collab) (b : Bool) (data : Request)
    (h1 : ∀ q e, c.llm_sql q ≠ .error e)
    (h2 : ∀ k e, c.cache_get k ≠ .error e) :
    ∀ e, generate_code_and_sql c b data = .error e →
      ∃ m, e = PyExc.invalidInput m := by
  intro e h
  obtain ⟨oct, oq⟩ := data
  cases oct with
  | none => exact ⟨_, (Except.error.inj h).symm⟩
  | some ct =>
    cases oq with
    | none => exact ⟨_, (Except.error.inj h).symm⟩
    | some q =>
      simp only [generate_code_and_sql] at h
      split at h
      · split at h
        next e' heq => exact absurd heq (gen_sql_no_error c b q (h1 q) e')
        next sql heq =>
          split at h
          next e' heq2 => exact absurd heq2 (h2 sql e')
          next entry heq2 => exact Except.noConfusion h
          next heq2 =>
            split at h
            next r heq3 => exact Except.noConfusion h
            next e' heq3 => exact ⟨_, (Except.error.inj h).symm⟩
      · exact ⟨_, (Except.error.inj h).symm⟩

/-- A collaborator bundle whose model invocation and cache lookup never
raise, but whose database execution raises. -/
def cDbBoom : Collab :=
  ⟨fun _ => .ok (("SELECT 1;").data),
   fun _ => .ok none,
   fun _ => .error (.other (("db boom").data)),
   fun _ _ => .ok [],
   fun _ _ _ => .ok ()⟩

/-- Witness for C2 amended: with a raising database collaborator the
operation fails, and the failure is an `InvalidInputError`. -/
theorem C2_amended_witness :
    (∀ q e, cDbBoom.llm_sql q ≠ .error e)
    ∧ (∀ k e, cDbBoom.cache_get k ≠ .error e)
    ∧ generate_code_and_sql cDbBoom true
        ⟨some (("matplotlib").data), some (("q").data)⟩
      = .error (.invalidInput (wrapMsg (("db boom").data)))
    ∧ (∀ e, generate_code_and_sql cDbBoom true
        ⟨some (("matplotlib").data), some (("q").data)⟩ = .error e →
      ∃ m, e = PyExc.invalidInput m) :=
  ⟨fun _ _ h => Except.noConfusion h, fun _ _ h => Except.noConfusion h,
    by decide,
    C2_amended cDbBoom true ⟨some (("matplotlib").data), some (("q").data)⟩
      (fun _ _ h => Except.noConfusion h) (fun _ _ h => Except.noConfusion h)⟩

/-- Claim C3 counterexample: a collaborator bundle whose cache lookup
raises an exception carrying its own key, so the returned error exposes
exactly the string the orchestrator used as the cache key. -/
def cKeyMarker : Collab :=
  ⟨fun _ => .ok (("The query:\n```sql\nSELECT a FROM t;\n```").data),
   fun k => .error (.other k),
   fun _ => .ok [],
   fun _ _ => .ok [],
   fun _ _ _ => .ok ()⟩

/-- Claim C3 is false as stated: with the OpenAI backend
(`is_openai = True`) the cache key is `response.content.strip()`, the whole
stripped model response, which differs from
`extract_sql_query(response)` on this response. -/
theorem C3_counterexample :
    generate_code_and_sql cKeyMarker true
        ⟨some (("matplotlib").data), some (("q").data)⟩
      = .error (.other (("The query:\n```sql\nSELECT a FROM t;\n```").data))
    ∧ (("The query:\n```sql\nSELECT a FROM t;\n```").data)
        ≠ extract_sql_query (("The query:\n```sql\nSELECT a FROM t;\n```").data) := by
  exact ⟨by decide, by decide⟩

/-- Claim C3 amended: the SQL string used as the cache key (and executed)
is `extract_sql_query(raw response)` only for the open-source backend
(`is_openai = False`); for the OpenAI backend it is the stripped raw
response, with no extraction applied.  The third part observes the key at
the `generate_code_and_sql` level through a key-marking cache lookup. -/
theorem C3_amended (c : Collab) (q raw : List Char) (h : c.llm_sql q = .ok raw) :
    _generate_sql_query c false q = .ok (extract_sql_query raw)
    ∧ _generate_sql_query c true q = .ok (pyStrip raw)
    ∧ (∀ ct, pyLower ct ∈ ALLOWED_CHART_TYPES →
        c.cache_get = (fun k => .error (.other k)) →
        generate_code_and_sql c false ⟨some ct, some q⟩
          = .error (.other (extract_sql_query raw))) := by
  have hs : ∀ b, _generate_sql_query c b q
      = .ok (if b then pyStrip raw else extract_sql_query raw) := by
    intro b
    unfold _generate_sql_query
    rw [h]
  refine ⟨hs false, hs true, ?_⟩
  intro ct hct hcg
  simp only [generate_code_and_sql]
  rw [if_pos hct, hs false]
  simp only [Bool.false_eq_true, if_false, _check_cache, hcg]

/-- Witness for C3 amended at a concrete model response containing a
fenced SQL block surrounded by prose. -/
theorem C3_amended_witness :
    cKeyMarker.llm_sql (("q").data)
      = .ok (("The query:\n```sql\nSELECT a FROM t;\n```").data)
    ∧ pyLower (("matplotlib").data) ∈ ALLOWED_CHART_TYPES
    ∧ generate_code_and_sql cKeyMarker false
        ⟨some (("matplotlib").data), some (("q").data)⟩
      = .error (.other (("SELECT a FROM t;").data)) := by
  refine ⟨by decide, by decide, ?_⟩
  have h := (C3_amended cKeyMarker (("q").data)
      (("The query:\n```sql\nSELECT a FROM t;\n```").data) (by decide)).2.2
      (("matplotlib").data) (by decide) rfl
  rw [h]
  decide

/-- Claim C5: on a cache hit the orchestrator returns the cached values
with the served-from-cache message, and its behaviour does not depend on
the database, chart-model, or cache-write collaborators at all (`c'` may
differ from `c` arbitrarily in `db_run`, `llm_chart` and `cache_set`):
execution, chart generation and the cache write are all skipped. -/
theorem C5_cache_hit (c c' : Collab) (hl : c'.llm_sql = c.llm_sql)
    (hg : c'.cache_get = c.cache_get) (b : Bool) (ct q sql : List Char)
    (entry : CacheEntry)
    (hct : pyLower ct ∈ ALLOWED_CHART_TYPES)
    (hsql : _generate_sql_query c b q = .ok sql)
    (hcache : c.cache_get sql = .ok (some entry)) :
    generate_code_and_sql c' b ⟨some ct, some q⟩
      = .ok (_format_response (("Fetching result from Redis cache...").data)
          entry.sql_query (entry.chart_code.map PyVal.str))
    ∧ generate_code_and_sql c' b ⟨some ct, some q⟩
      = generate_code_and_sql c b ⟨some ct, some q⟩ := by
  have key : ∀ (cc : Collab), cc.llm_sql = c.llm_sql → cc.cache_get = c.cache_get →
      generate_code_and_sql cc b ⟨some ct, some q⟩
        = .ok (_format_response (("Fetching result from Redis cache...").data)
            entry.sql_query (entry.chart_code.map PyVal.str)) := by
    intro cc hcl hcg
    simp only [generate_code_and_sql]
    rw [if_pos hct, gen_sql_congr c cc b q hcl, hsql]
    simp only [_check_cache, hcg, hcache]
  exact ⟨key c' hl hg, (key c' hl hg).trans (key c rfl rfl).symm⟩

/-- A collaborator bundle with one cached entry under the key
`"SELECT 1;"`. -/
def cHitBase : Collab :=
  ⟨fun _ => .ok (("SELECT 1;").data),
   fun k => if k = (("SELECT 1;").data) then
      .ok (some ⟨some (("SELECT 1;").data), some (("[(1,)]").data),
        some (("plot code").data)⟩)
    else .ok none,
   fun _ => .ok [],
   fun _ _ => .ok [],
   fun _ _ _ => .ok ()⟩

/-- `cHitBase` with database execution, chart generation and cache write
replaced by collaborators that would raise if they were ever consulted. -/
def cHitPoisoned : Collab :=
  { cHitBase with
    db_run := fun _ => .error (.other (("db must not run").data)),
    llm_chart := fun _ _ => .error (.other (("chart llm must not run").data)),
    cache_set := fun _ _ _ => .error (.other (("cache write must not run").data)) }

/-- Witness for C5 at a concrete hit: the poisoned collaborators are never
consulted and the cached values come back with the cache message. -/
theorem C5_cache_hit_witness :
    pyLower (("matplotlib").data) ∈ ALLOWED_CHART_TYPES
    ∧ _generate_sql_query cHitBase true (("q").data) = .ok (("SELECT 1;").data)
    ∧ cHitBase.cache_get (("SELECT 1;").data)
      = .ok (some ⟨some (("SELECT 1;").data), some (("[(1,)]").data),
          some (("plot code").data)⟩)
    ∧ generate_code_and_sql cHitPoisoned true
        ⟨some (("matplotlib").data), some (("q").data)⟩
      = .ok (_format_response (("Fetching result from Redis cache...").data)
          (some (("SELECT 1;").data)) (some (PyVal.str (("plot code").data)))) := by
  refine ⟨by decide, by decide, by decide, ?_⟩
  have h := (C5_cache_hit cHitBase cHitPoisoned rfl rfl true
      (("matplotlib").data) (("q").data) (("SELECT 1;").data)
      ⟨some (("SELECT 1;").data), some (("[(1,)]").data),
        some (("plot code").data)⟩
      (by decide) (by decide) (by decide)).1
  rw [h]
  rfl

/-- A Redis store holding, under the key `"k"`, stored text that is not
valid JSON. -/
def corruptStore : List Char → Option (List Char) :=
  fun k => if k = (("k").data) then some (("not json").data) else none

/-- The behaviour of `json.loads` on the stored texts of `corruptStore`:
on `"not json"` it raises `json.JSONDecodeError` (whose `str` is
`"Expecting value: line 1 column 1 (char 0)"`). -/
def strictLoads : List Char → Except PyExc CacheEntry :=
  fun d =>
    if d = (("not json").data) then
      .error (.other (("Expecting value: line 1 column 1 (char 0)").data))
    else .ok ⟨none, none, none⟩

/-- Claim C9 is false for the corrupt-entry half: `RedisCache.get` has no
handler around `json.loads`, so on a stored value that cannot be decoded
the decode error propagates to the caller — the read raises instead of
returning absent. -/
theorem C9_counterexample :
    RedisCache.get corruptStore strictLoads (("k").data)
      = .error (.other (("Expecting value: line 1 column 1 (char 0)").data))
    ∧ ∀ v, RedisCache.get corruptStore strictLoads (("k").data) ≠ .ok v := by
  have hval : RedisCache.get corruptStore strictLoads (("k").data)
      = .error (.other (("Expecting value: line 1 column 1 (char 0)").data)) := by
    decide
  refine ⟨hval, fun v h => ?_⟩
  rw [hval] at h
  exact Except.noConfusion h

/-- Claim C9 amended: `RedisCache.get` returns absent (`None`) without
raising when the key is missing, and also when the stored value is the
empty string (falsy); but when a non-empty stored value cannot be decoded,
the `json.loads` exception propagates to the caller. -/
theorem C9_amended {α : Type} (client_get : List Char → Option (List Char))
    (json_loads : List Char → Except PyExc α) (key : List Char) :
    (client_get key = none → RedisCache.get client_get json_loads key = .ok none)
    ∧ (client_get key = some [] →
        RedisCache.get client_get json_loads key = .ok none)
    ∧ (∀ d e, client_get key = some d → d ≠ [] → json_loads d = .error e →
        RedisCache.get client_get json_loads key = .error e) := by
  refine ⟨?_, ?_, ?_⟩
  · intro h
    simp only [RedisCache.get, h]
  · intro h
    simp only [RedisCache.get, h, if_true]
  · intro d e h hne hl
    simp only [RedisCache.get, h]
    rw [if_neg hne, hl]

/-- Witness for C9 amended: a missing key reads back as absent without
raising, and the corrupt entry under `"k"` raises the decode error. -/
theorem C9_amended_witness :
    corruptStore (("missing").data) = none
    ∧ RedisCache.get corruptStore strictLoads (("missing").data) = .ok none
    ∧ corruptStore (("k").data) = some (("not json").data)
    ∧ strictLoads (("not json").data)
        = .error (.other (("Expecting value: line 1 column 1 (char 0)").data))
    ∧ RedisCache.get corruptStore strictLoads (("k").data)
        = .error (.other (("Expecting value: line 1 column 1 (char 0)").data)) :=
  ⟨by decide,
    (C9_amended corruptStore strictLoads (("missing").data)).1 (by decide),
    by decide, by decide,
    (C9_amended corruptStore strictLoads (("k").data)).2.2
      (("not json").data)
      (.other (("Expecting value: line 1 column 1 (char 0)").data))
      (by decide) (by decide) (by decide)⟩

/-- The scan of `jsSearch` skips every position where neither alternative
of `JAVASCRIPT_REGEX` matches. -/
theorem jsSearch_advance (p : Nat) :
    ∀ (s : List Char),
      (∀ j, j < p → jsFenceAt (s.drop j) = none ∧ scriptTagAt (s.drop j) = none) →
      jsSearch s = jsSearch (s.drop p) := by
  induction p with
  | zero => intro s _; rw [List.drop_zero]
  | succ p ih =>
    intro s h
    cases s with
    | nil => rw [List.drop_nil]
    | cons c cs =>
      have h0 := h 0 (Nat.succ_pos p)
      rw [List.drop_zero] at h0
      have hstep : jsSearch (c :: cs) = jsSearch cs := by
        simp only [jsSearch, h0.1, h0.2]
      rw [hstep, List.drop_succ_cons]
      exact ih cs (fun j hj => by
        have := h (j + 1) (Nat.succ_lt_succ hj)
        rwa [List.drop_succ_cons] at this)

/-- Claim C4 counterexample: on a text containing both a `<script>` tag and
a ` ```js ` fenced block, with the script tag first, the leftmost regex
match wins and `extract_code_response` returns the script-tag capture
`"a"`, not the fenced-block capture `" b "`. -/
theorem C4_counterexample :
    extract_code_response (("<script>a</script> ```js b ```").data)
        (("chart.js").data)
      = PyVal.str (("a").data)
    ∧ jsFenceAt (((("<script>a</script> ```js b ```").data)).drop 19)
      = some ((" b ").data)
    ∧ scriptTagAt (("<script>a</script> ```js b ```").data)
      = some (("a").data)
    ∧ PyVal.str (("a").data) ≠ PyVal.str ((" b ").data) :=
  ⟨by decide, by decide, by decide, by decide⟩

/-- Claim C4 amended: for the chart.js kind, `extract_code_response`
returns (1) the script-tag content when no fenced block matches anywhere,
(2) null when neither alternative matches anywhere, and (3) the
fenced-block capture when the fenced block matches at a position before
every script-tag match and the capture is non-empty — regex alternation
prefers the fenced group only at equal start positions (impossible here),
so when a script tag occurs first its capture wins (see the
counterexample), and an empty fenced capture is falsy and yields null. -/
theorem C4_amended (s : List Char) :
    ((∀ i, jsFenceAt (s.drop i) = none) →
      ∀ p g, (∀ j, j < p → scriptTagAt (s.drop j) = none) →
        scriptTagAt (s.drop p) = some g →
        extract_code_response s (("chart.js").data) = PyVal.str g)
    ∧ ((∀ i, jsFenceAt (s.drop i) = none) →
        (∀ i, scriptTagAt (s.drop i) = none) →
        extract_code_response s (("chart.js").data) = PyVal.none)
    ∧ (∀ p g,
        (∀ j, j < p → jsFenceAt (s.drop j) = none ∧ scriptTagAt (s.drop j) = none) →
        jsFenceAt (s.drop p) = some g → g ≠ [] →
        extract_code_response s (("chart.js").data) = PyVal.str g) := by
  have hchart : ∀ r, jsSearch s = r →
      extract_code_response s (("chart.js").data)
        = (match r with
          | none => PyVal.none
          | some (JsGroup.fenced g1) => if g1 = [] then PyVal.none else PyVal.str g1
          | some (JsGroup.script g2) => PyVal.str g2) := by
    intro r hr
    unfold extract_code_response
    rw [if_neg (by decide), if_pos rfl, hr]
  refine ⟨?_, ?_, ?_⟩
  · intro hf p g hbefore hat
    have hadv := jsSearch_advance p s (fun j hj => ⟨hf j, hbefore j hj⟩)
    cases hd : s.drop p with
    | nil =>
      rw [hd] at hat
      rw [show scriptTagAt ([] : List Char) = none from by decide] at hat
      exact Option.noConfusion hat
    | cons c cs =>
      rw [hd] at hat
      have hfp := hf p
      rw [hd] at hfp
      have hsearch : jsSearch (c :: cs) = some (JsGroup.script g) := by
        simp only [jsSearch, hfp, hat]
      rw [hchart (some (JsGroup.script g)) (by rw [hadv, hd, hsearch])]
  · intro hf hsc
    have hadv := jsSearch_advance s.length s
      (fun j hj => ⟨hf j, hsc j⟩)
    rw [List.drop_length] at hadv
    rw [hchart none (by rw [hadv]; rfl)]
  · intro p g hbefore hat hne
    have hadv := jsSearch_advance p s hbefore
    cases hd : s.drop p with
    | nil =>
      rw [hd] at hat
      rw [show jsFenceAt ([] : List Char) = none from by decide] at hat
      exact Option.noConfusion hat
    | cons c cs =>
      rw [hd] at hat
      have hsearch : jsSearch (c :: cs) = some (JsGroup.fenced g) := by
        simp only [jsSearch, hat]
      exact (hchart (some (JsGroup.fenced g))
        (by rw [hadv, hd, hsearch])).trans (by simp [hne])

/-- A bounded no-match check extends to all positions, since beyond the
length of the text the suffix is empty. -/
theorem forall_drop_none_of_bounded {f : List Char → Option (List Char)}
    (hnil : f [] = none) (s : List Char)
    (hbound : ∀ i, i < s.length → f (s.drop i) = none) :
    ∀ i, f (s.drop i) = none := by
  intro i
  by_cases h : i < s.length
  · exact hbound i h
  · rw [List.drop_eq_nil_of_le (Nat.le_of_not_lt h)]
    exact hnil

/-- Witness for C4 amended on three concrete inputs: a fenced block that
comes first wins, a lone script tag is captured, and a text with neither
yields null. -/
theorem C4_amended_witness :
    extract_code_response (("x```js code``` <script>z</script>").data)
        (("chart.js").data)
      = PyVal.str ((" code").data)
    ∧ extract_code_response (("no fence <script>hi</script>").data)
        (("chart.js").data)
      = PyVal.str (("hi").data)
    ∧ extract_code_response (("nothing here").data) (("chart.js").data)
      = PyVal.none := by
  refine ⟨?_, ?_, ?_⟩
  · exact (C4_amended (("x```js code``` <script>z</script>").data)).2.2
      1 ((" code").data) (by decide) (by decide) (by decide)
  · exact (C4_amended (("no fence <script>hi</script>").data)).1
      (forall_drop_none_of_bounded (by decide) _ (by decide))
      9 (("hi").data) (by decide) (by decide)
  · exact (C4_amended (("nothing here").data)).2.1
      (forall_drop_none_of_bounded (by decide) _ (by decide))
      (forall_drop_none_of_bounded (by decide) _ (by decide))

/-!
## Lemmas for the idempotence of the extraction fallback (claim C7)
-/

theorem dropWhile_dropWhile (p : Char → Bool) (l : List Char) :
    (l.dropWhile p).dropWhile p = l.dropWhile p := by
  induction l with
  | nil => rfl
  | cons c cs ih =>
    by_cases h : p c
    · simp [List.dropWhile_cons, h, ih]
    · simp [List.dropWhile_cons, h]

theorem head_dropWhile_false (p : Char → Bool) :
    ∀ (l : List Char) (c : Char) (cs : List Char),
      l.dropWhile p = c :: cs → p c = false := by
  intro l
  induction l with
  | nil => intro c cs h; cases h
  | cons d ds ih =>
    intro c cs h
    by_cases hd : p d
    · rw [List.dropWhile_cons, if_pos hd] at h
      exact ih c cs h
    · rw [List.dropWhile_cons, if_neg hd] at h
      injection h with h1 _
      subst h1
      exact Bool.eq_false_iff.mpr hd

theorem pyStrip_idem (s : List Char) : pyStrip (pyStrip s) = pyStrip s := by
  unfold pyStrip
  have h1 : (((s.dropWhile isPySpace).reverse.dropWhile isPySpace).reverse).dropWhile
      isPySpace = ((s.dropWhile isPySpace).reverse.dropWhile isPySpace).reverse := by
    cases hc : ((s.dropWhile isPySpace).reverse.dropWhile isPySpace).reverse with
    | nil => rfl
    | cons c cs =>
      have hsuff : (s.dropWhile isPySpace).reverse.dropWhile isPySpace
          <:+ (s.dropWhile isPySpace).reverse := List.dropWhile_suffix _
      have hpref : ((s.dropWhile isPySpace).reverse.dropWhile isPySpace).reverse
          <+: s.dropWhile isPySpace := by
        have h := List.reverse_prefix.mpr hsuff
        rwa [List.reverse_reverse] at h
      rw [hc] at hpref
      obtain ⟨t, ht⟩ := hpref
      have hcfalse : isPySpace c = false :=
        head_dropWhile_false isPySpace s c (cs ++ t) (by rw [← ht]; rfl)
      rw [List.dropWhile_cons, if_neg (by rw [hcfalse]; exact fun h => Bool.noConfusion h)]
  rw [h1, List.reverse_reverse,
    dropWhile_dropWhile isPySpace (s.dropWhile isPySpace).reverse]

/-- Every text splits as leading whitespace, its strip, and trailing
whitespace. -/
theorem strip_decomp (s : List Char) :
    ∃ a b, (∀ c ∈ a, isPySpace c = true) ∧ (∀ c ∈ b, isPySpace c = true)
      ∧ s = a ++ pyStrip s ++ b := by
  refine ⟨s.takeWhile isPySpace,
    ((s.dropWhile isPySpace).reverse.takeWhile isPySpace).reverse, ?_, ?_, ?_⟩
  · intro c hc
    exact List.mem_takeWhile_imp hc
  · intro c hc
    rw [List.mem_reverse] at hc
    exact List.mem_takeWhile_imp hc
  · have key : s.dropWhile isPySpace
        = pyStrip s ++ ((s.dropWhile isPySpace).reverse.takeWhile isPySpace).reverse := by
      unfold pyStrip
      conv_lhs => rw [← List.reverse_reverse (s.dropWhile isPySpace),
        ← List.takeWhile_append_dropWhile (p := isPySpace)
          (l := (s.dropWhile isPySpace).reverse)]
      rw [List.reverse_append]
    calc s = s.takeWhile isPySpace ++ s.dropWhile isPySpace :=
          (List.takeWhile_append_dropWhile isPySpace s).symm
      _ = s.takeWhile isPySpace ++ (pyStrip s
            ++ ((s.dropWhile isPySpace).reverse.takeWhile isPySpace).reverse) := by
          rw [← key]
      _ = s.takeWhile isPySpace ++ pyStrip s
            ++ ((s.dropWhile isPySpace).reverse.takeWhile isPySpace).reverse :=
          (List.append_assoc _ _ _).symm

theorem isPrefixOf_append_of (pat u b : List Char)
    (h : pat.isPrefixOf u = true) : pat.isPrefixOf (u ++ b) = true := by
  rw [List.isPrefixOf_iff_prefix] at h ⊢
  exact h.trans (List.prefix_append u b)

theorem ciStartsWith_append (pat : List Char) :
    ∀ (u b : List Char), ciStartsWith pat u = true → ciStartsWith pat (u ++ b) = true := by
  induction pat with
  | nil => intro u b _; rfl
  | cons p ps ih =>
    intro u b h
    cases u with
    | nil => exact absurd h (by simp [ciStartsWith])
    | cons c cs =>
      rw [List.cons_append]
      simp only [ciStartsWith, Bool.and_eq_true] at h ⊢
      exact ⟨h.1, ih cs b h.2⟩

theorem ciStartsWith_le_length (pat : List Char) :
    ∀ (u : List Char), ciStartsWith pat u = true → pat.length ≤ u.length := by
  induction pat with
  | nil => intro u _; exact Nat.zero_le _
  | cons p ps ih =>
    intro u h
    cases u with
    | nil => exact absurd h (by simp [ciStartsWith])
    | cons c cs =>
      simp only [ciStartsWith, Bool.and_eq_true] at h
      simpa [List.length_cons] using Nat.succ_le_succ (ih cs h.2)

theorem splitFirst_append_isSome (pat : List Char) :
    ∀ (u b : List Char), (splitFirst pat u).isSome = true →
      (splitFirst pat (u ++ b)).isSome = true := by
  intro u
  induction u with
  | nil =>
    intro b h
    have hpat : pat = [] := by
      by_contra hne
      rw [show splitFirst pat [] = none from by
        unfold splitFirst; rw [if_neg hne]] at h
      exact Bool.noConfusion h
    subst hpat
    cases b with
    | nil => exact h
    | cons c cs => simp [splitFirst]
  | cons c cs ih =>
    intro b h
    rw [List.cons_append]
    by_cases hp2 : pat.isPrefixOf (c :: (cs ++ b)) = true
    · simp [splitFirst, hp2]
    · have hp1 : ¬ pat.isPrefixOf (c :: cs) = true := by
        intro hp
        exact hp2 (by
          rw [← List.cons_append]
          exact isPrefixOf_append_of pat (c :: cs) b hp)
      simp only [splitFirst, if_neg hp1, Option.isSome_map'] at h
      simp only [splitFirst, if_neg hp2, Option.isSome_map']
      exact ih b h

theorem sqlBlockSearch_append_isSome :
    ∀ (u b : List Char), (sqlBlockSearch u).isSome = true →
      (sqlBlockSearch (u ++ b)).isSome = true := by
  intro u
  induction u with
  | nil => intro b h; exact absurd h (by simp [sqlBlockSearch])
  | cons c cs ih =>
    intro b h
    rw [List.cons_append]
    by_cases hci : ciStartsWith (("```sql").data) (c :: cs) = true
    · have hci2 : ciStartsWith (("```sql").data) (c :: (cs ++ b)) = true := by
        rw [← List.cons_append]
        exact ciStartsWith_append _ _ b hci
      have hlen : 6 ≤ (c :: cs).length := ciStartsWith_le_length _ _ hci
      have hdrop : (c :: (cs ++ b)).drop 6 = ((c :: cs).drop 6) ++ b := by
        rw [← List.cons_append]
        exact List.drop_append_of_le_length hlen
      cases hsp : splitFirst (("```").data) ((c :: cs).drop 6) with
      | some pr =>
        have hS : (splitFirst (("```").data) (((c :: cs).drop 6) ++ b)).isSome = true :=
          splitFirst_append_isSome _ _ b (by rw [hsp]; rfl)
        simp only [sqlBlockSearch, hci2, if_true, hdrop]
        cases hq : splitFirst (("```").data) (((c :: cs).drop 6) ++ b) with
        | some pr2 => simp
        | none => rw [hq] at hS; exact Bool.noConfusion hS
      | none =>
        simp only [sqlBlockSearch, hci, if_true, hsp] at h
        simp only [sqlBlockSearch, hci2, if_true, hdrop]
        cases hq : splitFirst (("```").data) (((c :: cs).drop 6) ++ b) with
        | some pr2 => simp
        | none => exact ih b h
    · simp only [sqlBlockSearch, hci, if_false] at h
      by_cases hci2 : ciStartsWith (("```sql").data) (c :: (cs ++ b)) = true
      · simp only [sqlBlockSearch, hci2, if_true]
        cases hq : splitFirst (("```").data) ((c :: (cs ++ b)).drop 6) with
        | some pr2 => simp
        | none => exact ih b h
      · simp only [sqlBlockSearch, hci2, if_false]
        exact ih b h

theorem sqlBlockSearch_prepend_isSome (u : List Char) :
    ∀ (a : List Char), (sqlBlockSearch u).isSome = true →
      (sqlBlockSearch (a ++ u)).isSome = true := by
  intro a
  induction a with
  | nil => intro h; exact h
  | cons c as ih =>
    intro h
    rw [List.cons_append]
    by_cases hci : ciStartsWith (("```sql").data) (c :: (as ++ u)) = true
    · simp only [sqlBlockSearch, hci, if_true]
      cases hq : splitFirst (("```").data) ((c :: (as ++ u)).drop 6) with
      | some pr2 => simp
      | none => exact ih h
    · simp only [sqlBlockSearch, hci, if_false]
      exact ih h

theorem space_not_word (c : Char) (h : isPySpace c = true) : isWordChar c = false := by
  simp only [isPySpace, Bool.or_eq_true, beq_iff_eq] at h
  rcases h with ((((h | h) | h) | h) | h) | h <;> subst h <;> decide

/-- Unfolding equation for `wbSelectSearch` on a cons cell. -/
theorem wbSelectSearch_cons (w : Bool) (c : Char) (cs : List Char) :
    wbSelectSearch w (c :: cs) =
      if !w && ciStartsWith (("SELECT").data) (c :: cs)
          && boundaryAfter ((c :: cs).drop 6) then
        match splitFirst ([';']) ((c :: cs).drop 6) with
        | some (mid, _) => some ((c :: cs).take (6 + mid.length + 1))
        | none => wbSelectSearch (isWordChar c) cs
      else wbSelectSearch (isWordChar c) cs := rfl

theorem wbSelectSearch_append_isSome (b : List Char) :
    ∀ (u : List Char) (w : Bool), (wbSelectSearch w u).isSome = true →
      (wbSelectSearch w (u ++ b)).isSome = true := by
  intro u
  induction u with
  | nil => intro w h; exact absurd h (by simp [wbSelectSearch])
  | cons c cs ih =>
    intro w h
    rw [List.cons_append, wbSelectSearch_cons]
    rw [wbSelectSearch_cons] at h
    by_cases hg : (!w && ciStartsWith (("SELECT").data) (c :: cs)
        && boundaryAfter ((c :: cs).drop 6)) = true
    · rw [if_pos hg] at h
      cases hsp : splitFirst ([';']) ((c :: cs).drop 6) with
      | some pr =>
        obtain ⟨⟨hw, hci⟩, hb⟩ :
            ((!w) = true ∧ ciStartsWith (("SELECT").data) (c :: cs) = true)
              ∧ boundaryAfter ((c :: cs).drop 6) = true := by
          simpa [Bool.and_eq_true] using hg
        have hlen : 6 ≤ (c :: cs).length := ciStartsWith_le_length _ _ hci
        have hdrop : (c :: (cs ++ b)).drop 6 = ((c :: cs).drop 6) ++ b := by
          rw [← List.cons_append]
          exact List.drop_append_of_le_length hlen
        have hne : (c :: cs).drop 6 ≠ [] := by
          intro hnil
          rw [hnil] at hsp
          exact absurd hsp (by simp [splitFirst])
        have hb2 : boundaryAfter (((c :: cs).drop 6) ++ b) = true := by
          cases hd6 : (c :: cs).drop 6 with
          | nil => exact absurd hd6 hne
          | cons d ds =>
            rw [hd6] at hb
            rw [List.cons_append]
            simpa [boundaryAfter] using hb
        have hci2 : ciStartsWith (("SELECT").data) (c :: (cs ++ b)) = true := by
          rw [← List.cons_append]
          exact ciStartsWith_append _ _ b hci
        have hg2 : (!w && ciStartsWith (("SELECT").data) (c :: (cs ++ b))
            && boundaryAfter ((c :: (cs ++ b)).drop 6)) = true := by
          rw [hdrop, Bool.and_eq_true, Bool.and_eq_true]
          exact ⟨⟨hw, hci2⟩, hb2⟩
        have hS : (splitFirst ([';']) (((c :: cs).drop 6) ++ b)).isSome = true :=
          splitFirst_append_isSome _ _ b (by rw [hsp]; rfl)
        rw [if_pos hg2, hdrop]
        cases hq : splitFirst ([';']) (((c :: cs).drop 6) ++ b) with
        | some pr2 =>
          obtain ⟨m2, r2⟩ := pr2
          rfl
        | none => rw [hq] at hS; exact Bool.noConfusion hS
      | none =>
        rw [hsp] at h
        by_cases hg2 : (!w && ciStartsWith (("SELECT").data) (c :: (cs ++ b))
            && boundaryAfter ((c :: (cs ++ b)).drop 6)) = true
        · rw [if_pos hg2]
          cases hq : splitFirst ([';']) ((c :: (cs ++ b)).drop 6) with
          | some pr2 =>
            obtain ⟨m2, r2⟩ := pr2
            rfl
          | none => exact ih (isWordChar c) h
        · rw [if_neg hg2]
          exact ih (isWordChar c) h
    · rw [if_neg hg] at h
      by_cases hg2 : (!w && ciStartsWith (("SELECT").data) (c :: (cs ++ b))
          && boundaryAfter ((c :: (cs ++ b)).drop 6)) = true
      · rw [if_pos hg2]
        cases hq : splitFirst ([';']) ((c :: (cs ++ b)).drop 6) with
        | some pr2 =>
          obtain ⟨m2, r2⟩ := pr2
          rfl
        | none => exact ih (isWordChar c) h
      · rw [if_neg hg2]
        exact ih (isWordChar c) h

theorem wbSelectSearch_prepend_isSome (u : List Char) :
    ∀ (a : List Char), (∀ c ∈ a, isPySpace c = true) →
      (wbSelectSearch false u).isSome = true →
      (wbSelectSearch false (a ++ u)).isSome = true := by
  intro a
  induction a with
  | nil => intro _ h; exact h
  | cons c as ih =>
    intro hsp h
    have hw : isWordChar c = false := space_not_word c (hsp c (List.mem_cons_self c as))
    rw [List.cons_append, wbSelectSearch_cons, hw]
    by_cases hg : (!false && ciStartsWith (("SELECT").data) (c :: (as ++ u))
        && boundaryAfter ((c :: (as ++ u)).drop 6)) = true
    · rw [if_pos hg]
      cases hq : splitFirst ([';']) ((c :: (as ++ u)).drop 6) with
      | some pr =>
        obtain ⟨m, r⟩ := pr
        rfl
      | none => exact ih (fun d hd => hsp d (List.mem_cons_of_mem c hd)) h
    · rw [if_neg hg]
      exact ih (fun d hd => hsp d (List.mem_cons_of_mem c hd)) h

/-- Claim C7: on a text with no recognizable SQL pattern — its trimmed text
does not begin with `SELECT`, the ` ```sql ` fence search fails, and the
word-boundary `SELECT ... ;` search fails — `extract_sql_query` returns the
trimmed input, and applying `extract_sql_query` to that output returns the
same output (the stripped text is an infix of the original between
whitespace-only margins, so no search can succeed on it either, and
stripping is idempotent). -/
theorem C7_no_pattern_idempotent (s : List Char)
    (h1 : ¬ (("SELECT").data).isPrefixOf (pyUpper (pyStrip s)) = true)
    (h2 : sqlBlockSearch s = none)
    (h3 : wbSelectSearch false s = none) :
    extract_sql_query s = pyStrip s
    ∧ extract_sql_query (extract_sql_query s) = extract_sql_query s := by
  have base : extract_sql_query s = pyStrip s := by
    unfold extract_sql_query
    rw [if_neg h1, h2, h3]
  obtain ⟨a, b, ha, hb, hdecomp⟩ := strip_decomp s
  have h2' : sqlBlockSearch (pyStrip s) = none := by
    cases hq : sqlBlockSearch (pyStrip s) with
    | none => rfl
    | some g =>
      exfalso
      have hs1 : (sqlBlockSearch (pyStrip s ++ b)).isSome = true :=
        sqlBlockSearch_append_isSome _ b (by rw [hq]; rfl)
      have hs2 : (sqlBlockSearch (a ++ (pyStrip s ++ b))).isSome = true :=
        sqlBlockSearch_prepend_isSome _ a hs1
      rw [← List.append_assoc, ← hdecomp, h2] at hs2
      exact Bool.noConfusion hs2
  have h3' : wbSelectSearch false (pyStrip s) = none := by
    cases hq : wbSelectSearch false (pyStrip s) with
    | none => rfl
    | some g =>
      exfalso
      have hs1 : (wbSelectSearch false (pyStrip s ++ b)).isSome = true :=
        wbSelectSearch_append_isSome b _ false (by rw [hq]; rfl)
      have hs2 : (wbSelectSearch false (a ++ (pyStrip s ++ b))).isSome = true :=
        wbSelectSearch_prepend_isSome _ a ha hs1
      rw [← List.append_assoc, ← hdecomp, h3] at hs2
      exact Bool.noConfusion hs2
  have h1' : ¬ (("SELECT").data).isPrefixOf (pyUpper (pyStrip (pyStrip s))) = true := by
    rw [pyStrip_idem]
    exact h1
  have base2 : extract_sql_query (pyStrip s) = pyStrip (pyStrip s) := by
    unfold extract_sql_query
    rw [if_neg h1', h2', h3']
  refine ⟨base, ?_⟩
  rw [base, base2, pyStrip_idem]

/-- Witness for C7 at the pattern-free input `"  model said no  "`. -/
theorem C7_no_pattern_idempotent_witness :
    (¬ (("SELECT").data).isPrefixOf (pyUpper (pyStrip (("  model said no  ").data))) = true)
    ∧ sqlBlockSearch (("  model said no  ").data) = none
    ∧ wbSelectSearch false (("  model said no  ").data) = none
    ∧ extract_sql_query (("  model said no  ").data) = (("model said no").data)
    ∧ extract_sql_query (extract_sql_query (("  model said no  ").data))
        = extract_sql_query (("  model said no  ").data) := by
  have h := C7_no_pattern_idempotent (("  model said no  ").data)
    (by decide) (by decide) (by decide)
  exact ⟨by decide, by decide, by decide, h.1.trans (by decide), h.2⟩

end SQLRAG
